/-
Verification of the program-synthesis evaluation pipeline
(report model, toolchain adapters, mock synthesizer, pass@k estimator).

The Python sources are shallowly embedded: the `EvaluationReport` class
becomes a Lean structure with its methods as pure state-transforming
functions, Python float arithmetic is modelled over `ℚ`, and the one
partial Python operation reachable from the embedded code (division in
`finalize`, which would raise `ZeroDivisionError` on a zero denominator)
is modelled in an `Except` monad so that "never raises" claims are
meaningful.
-/

import Mathlib

/-- A single entry of `EvaluationReport.test_results`
    (the dict built by `add_test_result` in src/report.py). -/
structure TestResult where
  input : String
  expected_output : String
  actual_output : String
  status : String
  error : Option String
deriving DecidableEq, Repr

/-- The mutable state of the Python class `EvaluationReport`
    (src/report.py, `__init__`).  `success_rate` (a Python float) is
    modelled over `ℚ`. -/
structure EvaluationReport where
  synthesized_program : String
  synthesized : Bool
  compiles : Bool
  executes : Bool
  total_tests : Nat
  passed_tests : Nat
  failed_tests : Nat
  test_results : List TestResult
  stdout : String
  stderr : String
  synthesizer_errors : List String
  compiler_errors : List String
  runtime_errors : List String
  warnings : List String
  has_syntax_errors : Bool
  has_runtime_errors : Bool
  has_logic_errors : Bool
  success_rate : ℚ
  overall_status : String
deriving DecidableEq, Repr

namespace EvaluationReport

/-- `EvaluationReport.__init__(synthesized_program)`: the field defaults. -/
def init (synthesized_program : String) : EvaluationReport where
  synthesized_program := synthesized_program
  synthesized := false
  compiles := false
  executes := false
  total_tests := 0
  passed_tests := 0
  failed_tests := 0
  test_results := []
  stdout := ""
  stderr := ""
  synthesizer_errors := []
  compiler_errors := []
  runtime_errors := []
  warnings := []
  has_syntax_errors := false
  has_runtime_errors := false
  has_logic_errors := false
  success_rate := 0
  overall_status := "unknown"

/-- `EvaluationReport.add_test_result` (src/report.py): append the test
    dict, bump `total_tests`, and bump `passed_tests` exactly when
    `status == "passed"`, otherwise `failed_tests`. -/
def add_test_result (r : EvaluationReport) (test_input expected_output
    actual_output status : String) (error : Option String) : EvaluationReport :=
  { r with
    test_results := r.test_results ++
      [⟨test_input, expected_output, actual_output, status, error⟩]
    total_tests := r.total_tests + 1
    passed_tests := if status = "passed" then r.passed_tests + 1 else r.passed_tests
    failed_tests := if status = "passed" then r.failed_tests else r.failed_tests + 1 }

/-- `EvaluationReport.add_error` (src/report.py): dispatch on the
    `error_type` string; an unrecognised type falls through every branch
    and the state is untouched. -/
def add_error (r : EvaluationReport) (error_type error_message : String) :
    EvaluationReport :=
  if error_type = "synthesizer" then
    { r with synthesizer_errors := r.synthesizer_errors ++ [error_message]
             synthesized := false }
  else if error_type = "compiler" then
    { r with compiler_errors := r.compiler_errors ++ [error_message]
             has_syntax_errors := true }
  else if error_type = "runtime" then
    { r with runtime_errors := r.runtime_errors ++ [error_message]
             has_runtime_errors := true }
  else if error_type = "warning" then
    { r with warnings := r.warnings ++ [error_message] }
  else
    r

/-- First half of `EvaluationReport.finalize`: the guarded update
    `if self.total_tests > 0: self.success_rate = passed / total`. -/
def setRate (r : EvaluationReport) : EvaluationReport :=
  if 0 < r.total_tests then
    { r with success_rate := (r.passed_tests : ℚ) / (r.total_tests : ℚ) }
  else r

/-- The value written to `overall_status` by the second half of
    `finalize`, as a function of the fields it reads. -/
def statusOf (r : EvaluationReport) : String :=
  if r.has_syntax_errors || !r.compiles then "failed"
  else if r.success_rate = 1 then "success"
  else if 0 < r.success_rate then "partial"
  else "failed"

/-- `EvaluationReport.finalize` (src/report.py): update `success_rate`
    (when there are tests), then recompute `overall_status` from the
    updated state. -/
def finalize (r : EvaluationReport) : EvaluationReport :=
  let r1 := setRate r
  { r1 with overall_status := statusOf r1 }

/-- Python division, raising `ZeroDivisionError` on a zero denominator. -/
def pydiv (a b : ℚ) : Except String ℚ :=
  if b = 0 then .error "ZeroDivisionError" else .ok (a / b)

/-- `finalize` with Python's partial division made explicit: the only
    operation in src/report.py that can raise. -/
def finalizeE (r : EvaluationReport) : Except String EvaluationReport := do
  let r1 ←
    if 0 < r.total_tests then do
      let rate ← pydiv (r.passed_tests : ℚ) (r.total_tests : ℚ)
      pure { r with success_rate := rate }
    else pure r
  pure { r1 with overall_status := statusOf r1 }

end EvaluationReport

/-- The fields of `ProgramSynthesisDatapoint` (src/dataset.py) that the
    `evaluate` methods read: the published sample tests. -/
structure ProgramSynthesisDatapoint where
  sample_inputs : List String
  sample_outputs : List String
deriving DecidableEq, Repr

/-- The five failure modes `MockSynthesizer.evaluate` draws from with
    `random.choice` (src/synthesizer.py). -/
inductive MockFailureType
  | synthesisFailure
  | syntaxError
  | runtimeError
  | timeoutError
  | partialSuccess
deriving DecidableEq, Repr

namespace MockSynthesizer

open EvaluationReport

/-- `MockSynthesizer.evaluate` (src/synthesizer.py): build the mock
    report for the drawn failure type (passed in as `ft`, standing for
    the `random.choice` result), then finalize.  `finalizeE` keeps the
    one partial Python operation on this path explicit. -/
def evaluate (dp : ProgramSynthesisDatapoint) (synthesized_program : String)
    (ft : MockFailureType) : Except String EvaluationReport :=
  let report := EvaluationReport.init synthesized_program
  let report :=
    match ft with
    | .synthesisFailure =>
        add_error { report with synthesized := false, compiles := false,
                                executes := false }
          "synthesizer" "LLM running out of tokens"
    | .syntaxError =>
        add_error
          (add_error { report with compiles := false }
            "compiler" "SyntaxError: invalid syntax")
          "compiler" "IndentationError: unexpected indent"
    | .runtimeError =>
        add_error { report with compiles := true, executes := false }
          "runtime" "NameError: name \x27undefined_var\x27 is not defined"
    | .timeoutError =>
        ((dp.sample_inputs.zip dp.sample_outputs).enum).foldl
          (fun r ie =>
            if ie.1 = 0 then
              add_test_result r ie.2.1 ie.2.2 "" "error" (some "Execution timed out")
            else
              add_test_result r ie.2.1 ie.2.2 "" "error"
                (some "Test skipped due to timeout"))
          { report with compiles := true, executes := true }
    | .partialSuccess =>
        ((dp.sample_inputs.zip dp.sample_outputs).enum).foldl
          (fun r ie =>
            if ie.1 % 2 = 0 then
              add_test_result r ie.2.1 ie.2.2 ie.2.2 "passed" none
            else
              add_test_result r ie.2.1 ie.2.2 "wrong_output" "failed" none)
          { report with compiles := true, executes := true }
  finalizeE report

end MockSynthesizer

namespace RustProgramSynthesizer

/-- `RustProgramSynthesizer.evaluate` (src/synthesizer_rust.py): the
    body between report construction and `finalize()` is the
    assignment's unimplemented stub (`pass` inside the temporary
    directory block), so the method builds a fresh report from the
    program text and finalizes it. -/
def evaluate (_datapoint : ProgramSynthesisDatapoint)
    (synthesized_program : String) : Except String EvaluationReport :=
  EvaluationReport.finalizeE (EvaluationReport.init synthesized_program)

end RustProgramSynthesizer

namespace OCamlProgramSynthesizer

/-- `OCamlProgramSynthesizer.evaluate` (src/synthesizer_ocaml.py): the
    body between report construction and `finalize()` is the
    assignment's unimplemented stub, as in the Rust adapter. -/
def evaluate (_datapoint : ProgramSynthesisDatapoint)
    (synthesized_program : String) : Except String EvaluationReport :=
  EvaluationReport.finalizeE (EvaluationReport.init synthesized_program)

end OCamlProgramSynthesizer

/-- Outcome of the `subprocess.run(["ocaml", "-version"], ...)` call as
    observed by `_check_ocaml_availability`: the process completed with
    a return code, the binary was missing (`FileNotFoundError`), or the
    5-second timeout expired (`subprocess.TimeoutExpired`). -/
inductive ProbeOutcome
  | completed (returncode : Int)
  | fileNotFound
  | timedOut
deriving DecidableEq, Repr

/-- The toolchain environment an adapter constructor runs in: what
    running `["ocaml", "-version"]` would yield there. -/
structure ToolchainEnv where
  ocamlProbe : ProbeOutcome
deriving DecidableEq, Repr

/-- `OCamlProgramSynthesizer._check_ocaml_availability`
    (src/synthesizer_ocaml.py): `returncode == 0` on completion, and the
    `except (FileNotFoundError, subprocess.TimeoutExpired)` clause turns
    both failure modes into `False` instead of propagating them. -/
def check_ocaml_availability : ProbeOutcome → Bool
  | .completed rc => rc == 0
  | .fileNotFound => false
  | .timedOut => false

/-- The constructor-written fields of the OCaml adapter relevant to the
    availability claims: the parent-class configuration plus the
    `_ocaml_available` flag. -/
structure OCamlSynthesizerState where
  target_language : String
  prompting_method : String
  model_name : String
  ocaml_available : Bool
deriving DecidableEq, Repr

/-- The constructor-written fields of the Rust adapter: the parent-class
    configuration only — `RustProgramSynthesizer.__init__` declares no
    availability flag. -/
structure RustSynthesizerState where
  target_language : String
  prompting_method : String
  model_name : String
deriving DecidableEq, Repr

/-- `OCamlProgramSynthesizer.__init__` (src/synthesizer_ocaml.py): the
    parent constructor with language "ocaml", then one availability
    probe whose boolean lands in `_ocaml_available`.  The second
    component records the availability-probe commands executed during
    construction. -/
def ocamlInit (env : ToolchainEnv) (prompting_method model_name : String) :
    OCamlSynthesizerState × List (List String) :=
  (⟨"ocaml", prompting_method, model_name,
    check_ocaml_availability env.ocamlProbe⟩,
   [["ocaml", "-version"]])

/-- `RustProgramSynthesizer.__init__` (src/synthesizer_rust.py): only
    the parent constructor with language "rust" runs; no availability
    probe is executed during construction. -/
def rustInit (prompting_method model_name : String) :
    RustSynthesizerState × List (List String) :=
  (⟨"rust", prompting_method, model_name⟩, [])

/-- One call to a state-modifying method of `EvaluationReport`, for
    claims quantifying over reports whose fields were written only
    through the class's own methods. -/
inductive ReportMethod
  | addTest (test_input expected_output actual_output status : String)
      (error : Option String)
  | addErr (error_type error_message : String)
  | fin
deriving DecidableEq, Repr

/-- Run one method call on a report state. -/
def applyMethod (r : EvaluationReport) : ReportMethod → EvaluationReport
  | .addTest ti eo ao st err => r.add_test_result ti eo ao st err
  | .addErr ty msg => r.add_error ty msg
  | .fin => r.finalize

/-- Run a sequence of method calls on a report state. -/
def applyMethods (r : EvaluationReport) (ms : List ReportMethod) :
    EvaluationReport :=
  ms.foldl applyMethod r

/-- The arguments of one `add_test_result` call. -/
structure TestCall where
  test_input : String
  expected_output : String
  actual_output : String
  status : String
  error : Option String
deriving DecidableEq, Repr

/-- Run a sequence of `add_test_result` calls on a report state. -/
def applyTests (r : EvaluationReport) (calls : List TestCall) :
    EvaluationReport :=
  calls.foldl (fun r c =>
    r.add_test_result c.test_input c.expected_output c.actual_output
      c.status c.error) r

/-- One per-problem record of `Evaluator.datapoint_logs`
    (src/evaluate.py), reduced to what the pass@k estimator reads: the
    success flag of each attempt. -/
structure DatapointLog where
  attempts : List Bool
deriving DecidableEq, Repr

/-- Modelled from the spec: the per-problem pass@k value of the
    estimator `Evaluator._compute_pass_at_k_metrics` (src/evaluate.py),
    whose body is the assignment's unimplemented stub.  Per the spec,
    `pass@k = 1 − C(n−c, k) / C(n, k)`, defined as 1 if `n − c < k`. -/
def pass_at_k (n c k : ℕ) : ℚ :=
  if n - c < k then 1
  else 1 - ((n - c).choose k : ℚ) / (n.choose k : ℚ)

/-- Modelled from the spec: `Evaluator._compute_pass_at_k_metrics`
    (src/evaluate.py), whose body is the assignment's unimplemented
    stub.  Per the spec, it emits one value per k in 1..max_pass_at_k,
    each the arithmetic mean over all problems with at least one
    attempt, substituting a problem's attempt count for any configured
    k that exceeds it. -/
def compute_pass_at_k_metrics (max_pass_at_k : ℕ) (logs : List DatapointLog) :
    List (ℕ × ℚ) :=
  (List.range max_pass_at_k).map fun i =>
    let k := i + 1
    let eligible := logs.filter fun l => 0 < l.attempts.length
    let vals := eligible.map fun l =>
      pass_at_k l.attempts.length (l.attempts.count true)
        (min k l.attempts.length)
    (k, vals.sum / (eligible.length : ℚ))

namespace EvaluationReport

theorem setRate_total (r : EvaluationReport) :
    (setRate r).total_tests = r.total_tests := by
  unfold setRate; split <;> rfl

theorem setRate_passed (r : EvaluationReport) :
    (setRate r).passed_tests = r.passed_tests := by
  unfold setRate; split <;> rfl

theorem setRate_compiles (r : EvaluationReport) :
    (setRate r).compiles = r.compiles := by
  unfold setRate; split <;> rfl

theorem setRate_hsx (r : EvaluationReport) :
    (setRate r).has_syntax_errors = r.has_syntax_errors := by
  unfold setRate; split <;> rfl

theorem setRate_rate (r : EvaluationReport) :
    (setRate r).success_rate =
      if 0 < r.total_tests then (r.passed_tests : ℚ) / (r.total_tests : ℚ)
      else r.success_rate := by
  unfold setRate; split <;> rfl

theorem finalize_total (r : EvaluationReport) :
    (finalize r).total_tests = r.total_tests := setRate_total r

theorem finalize_passed (r : EvaluationReport) :
    (finalize r).passed_tests = r.passed_tests := setRate_passed r

theorem finalize_compiles (r : EvaluationReport) :
    (finalize r).compiles = r.compiles := setRate_compiles r

theorem finalize_hsx (r : EvaluationReport) :
    (finalize r).has_syntax_errors = r.has_syntax_errors := setRate_hsx r

theorem finalize_rate (r : EvaluationReport) :
    (finalize r).success_rate = (setRate r).success_rate := rfl

theorem finalize_status (r : EvaluationReport) :
    (finalize r).overall_status = statusOf (setRate r) := rfl

/-- After `finalize`, `success_rate` is nonnegative whenever it was
    nonnegative before: the recomputed value is a quotient of casts. -/
theorem finalize_rate_nonneg (r : EvaluationReport)
    (h : 0 ≤ r.success_rate) : 0 ≤ (finalize r).success_rate := by
  rw [finalize_rate, setRate_rate]
  split
  · exact div_nonneg (Nat.cast_nonneg _) (Nat.cast_nonneg _)
  · exact h

/-- The guard `total_tests > 0` in `finalize` keeps the division total:
    the exception-aware embedding always succeeds, with the pure result. -/
theorem finalizeE_ok (r : EvaluationReport) : finalizeE r = .ok (finalize r) := by
  by_cases h : 0 < r.total_tests
  · have hz : (r.total_tests : ℚ) ≠ 0 := by
      exact_mod_cast Nat.pos_iff_ne_zero.mp h
    simp [finalizeE, finalize, setRate, pydiv, h, hz, Except.bind]
  · simp only [finalizeE, finalize, setRate, if_neg h]
    rfl

end EvaluationReport

/-
Helper lemmas.
-/

namespace EvaluationReport

/-- `add_error` never touches the test counter. -/
theorem add_error_total (r : EvaluationReport) (ty msg : String) :
    (r.add_error ty msg).total_tests = r.total_tests := by
  unfold add_error; split_ifs <;> rfl

/-- `add_error` never touches the success rate. -/
theorem add_error_rate (r : EvaluationReport) (ty msg : String) :
    (r.add_error ty msg).success_rate = r.success_rate := by
  unfold add_error; split_ifs <;> rfl

/-- Case analysis of the status written by `finalize`, for a state with
    nonnegative `success_rate`. -/
theorem statusOf_classification (s : EvaluationReport) (h0 : 0 ≤ s.success_rate) :
    (statusOf s = "success" ↔
       (s.success_rate = 1 ∧ s.compiles = true ∧ s.has_syntax_errors = false)) ∧
    (statusOf s = "failed" ↔
       (s.compiles = false ∨ s.has_syntax_errors = true ∨ s.success_rate = 0)) ∧
    (statusOf s = "partial" ↔
       (¬(s.success_rate = 1 ∧ s.compiles = true ∧ s.has_syntax_errors = false) ∧
        ¬(s.compiles = false ∨ s.has_syntax_errors = true ∨ s.success_rate = 0))) := by
  unfold statusOf
  split_ifs with h1 h2 h3
  · simp only [Bool.or_eq_true, Bool.not_eq_true'] at h1
    have hB : s.compiles = false ∨ s.has_syntax_errors = true ∨ s.success_rate = 0 := by
      rcases h1 with h | h
      · exact Or.inr (Or.inl h)
      · exact Or.inl h
    refine ⟨iff_of_false (by decide) ?_, iff_of_true rfl hB, iff_of_false (by decide) ?_⟩
    · rintro ⟨-, hc, hx⟩
      rcases h1 with h | h
      · rw [hx] at h; cases h
      · rw [hc] at h; cases h
    · rintro ⟨-, hnB⟩; exact hnB hB
  · simp only [Bool.or_eq_true, Bool.not_eq_true', not_or, Bool.not_eq_true,
      Bool.not_eq_false] at h1
    obtain ⟨hx, hc⟩ := h1
    refine ⟨iff_of_true rfl ⟨h2, hc, hx⟩, iff_of_false (by decide) ?_,
      iff_of_false (by decide) ?_⟩
    · rintro (h | h | h)
      · rw [hc] at h; cases h
      · rw [hx] at h; cases h
      · rw [h2] at h; exact one_ne_zero h
    · rintro ⟨hnA, -⟩; exact hnA ⟨h2, hc, hx⟩
  · simp only [Bool.or_eq_true, Bool.not_eq_true', not_or, Bool.not_eq_true,
      Bool.not_eq_false] at h1
    obtain ⟨hx, hc⟩ := h1
    have hnB : ¬(s.compiles = false ∨ s.has_syntax_errors = true ∨ s.success_rate = 0) := by
      rintro (h | h | h)
      · rw [hc] at h; cases h
      · rw [hx] at h; cases h
      · rw [h] at h3; exact lt_irrefl 0 h3
    refine ⟨iff_of_false (by decide) ?_, iff_of_false (by decide) hnB,
      iff_of_true rfl ⟨?_, hnB⟩⟩
    · rintro ⟨h, -, -⟩; exact h2 h
    · rintro ⟨h, -, -⟩; exact h2 h
  · have hz : s.success_rate = 0 := le_antisymm (not_lt.mp h3) h0
    refine ⟨iff_of_false (by decide) ?_, iff_of_true rfl (Or.inr (Or.inr hz)),
      iff_of_false (by decide) ?_⟩
    · rintro ⟨h, -, -⟩; exact h2 h
    · rintro ⟨-, hnB⟩; exact hnB (Or.inr (Or.inr hz))

end EvaluationReport

/-- Every `add_test_result` call bumps `total_tests` and exactly one of
    the two outcome counters, so their sum-invariant is preserved along
    any call sequence. -/
theorem applyTests_counters (calls : List TestCall) (r : EvaluationReport)
    (h : r.total_tests = r.passed_tests + r.failed_tests) :
    (applyTests r calls).total_tests =
      (applyTests r calls).passed_tests + (applyTests r calls).failed_tests := by
  induction calls generalizing r with
  | nil => exact h
  | cons c cs ih =>
      exact ih _ (by
        simp only [EvaluationReport.add_test_result]
        split_ifs <;> omega)

/-- Along any sequence of method calls, a report with no tests recorded
    still has the constructor value `success_rate = 0`: the only writer
    of `success_rate` is guarded by `total_tests > 0`, and `total_tests`
    never decreases. -/
theorem applyMethods_zero_rate (ms : List ReportMethod) (r : EvaluationReport)
    (h : r.total_tests = 0 → r.success_rate = 0) :
    (applyMethods r ms).total_tests = 0 → (applyMethods r ms).success_rate = 0 := by
  induction ms generalizing r with
  | nil => exact h
  | cons m ms ih =>
      refine ih _ ?_
      cases m with
      | addTest ti eo ao st err =>
          intro h0
          exact absurd h0 (by simp [applyMethod, EvaluationReport.add_test_result])
      | addErr ty msg =>
          intro h0
          rw [applyMethod, EvaluationReport.add_error_total] at h0
          rw [applyMethod, EvaluationReport.add_error_rate]
          exact h h0
      | fin =>
          intro h0
          rw [applyMethod, EvaluationReport.finalize_total] at h0
          rw [applyMethod, EvaluationReport.finalize_rate,
            EvaluationReport.setRate_rate, if_neg (by omega)]
          exact h h0

/-
Claim theorems.
-/

/-- C1: `_compute_pass_at_k_metrics` (modelled from the spec) returns,
    for each k in 1..max_pass_at_k, the arithmetic mean over all
    problems with at least one attempt of the per-problem pass@k value
    `1 − C(n−c, k) / C(n, k)` (taken as 1 when `n − c < k`),
    substituting the number of attempts actually run for k whenever the
    configured k exceeds it; and for n = 5, c = 2, k = 3 the
    per-problem value is 9/10. -/
theorem pass_at_k_metrics_arithmetic_mean (maxK k : ℕ) (logs : List DatapointLog)
    (hk1 : 1 ≤ k) (hk2 : k ≤ maxK)
    (hlog : ∀ l ∈ logs, 1 ≤ l.attempts.length) :
    (compute_pass_at_k_metrics maxK logs)[k - 1]? =
      some (k,
        (logs.map fun l =>
          pass_at_k l.attempts.length (l.attempts.count true)
            (min k l.attempts.length)).sum / (logs.length : ℚ)) ∧
    pass_at_k 5 2 (min 3 5) = 9/10 := by
  constructor
  · unfold compute_pass_at_k_metrics
    rw [List.getElem?_map, List.getElem?_range (by omega)]
    have hfilter : (logs.filter fun l => 0 < l.attempts.length) = logs := by
      rw [List.filter_eq_self]
      intro l hl
      simpa using hlog l hl
    have hk : k - 1 + 1 = k := by omega
    simp only [Option.map_some', hfilter, hk]
  · show pass_at_k 5 2 3 = 9 / 10
    have h53 : Nat.choose 5 3 = 10 := by decide
    norm_num [pass_at_k, h53]

/-- Witness for C1: one problem with 5 attempts, 2 of them successful,
    and k = 3 within a max_pass_at_k of 3. -/
theorem pass_at_k_metrics_arithmetic_mean_witness :
    (1 ≤ 3 ∧ 3 ≤ 3 ∧
      ∀ l ∈ [DatapointLog.mk [true, true, false, false, false]],
        1 ≤ l.attempts.length) ∧
    ((compute_pass_at_k_metrics 3 [DatapointLog.mk [true, true, false, false, false]])[3 - 1]? =
      some (3,
        (([DatapointLog.mk [true, true, false, false, false]] : List DatapointLog).map fun l =>
          pass_at_k l.attempts.length (l.attempts.count true)
            (min 3 l.attempts.length)).sum /
          (([DatapointLog.mk [true, true, false, false, false]] : List DatapointLog).length : ℚ)) ∧
     pass_at_k 5 2 (min 3 5) = 9/10) :=
  ⟨⟨by decide, by decide, by decide⟩,
    pass_at_k_metrics_arithmetic_mean 3 3
      [DatapointLog.mk [true, true, false, false, false]]
      (by decide) (by decide) (by decide)⟩

/-- C2: after `finalize()`, `overall_status` is "success" iff the
    success rate is 1 with a compiling, syntax-error-free program;
    "failed" iff the program does not compile, has syntax errors, or
    the success rate is 0; and "partial" in exactly the remaining
    cases. -/
theorem overall_status_classification (r : EvaluationReport)
    (h : 0 ≤ r.success_rate) :
    ((EvaluationReport.finalize r).overall_status = "success" ↔
       ((EvaluationReport.finalize r).success_rate = 1 ∧
        (EvaluationReport.finalize r).compiles = true ∧
        (EvaluationReport.finalize r).has_syntax_errors = false)) ∧
    ((EvaluationReport.finalize r).overall_status = "failed" ↔
       ((EvaluationReport.finalize r).compiles = false ∨
        (EvaluationReport.finalize r).has_syntax_errors = true ∨
        (EvaluationReport.finalize r).success_rate = 0)) ∧
    ((EvaluationReport.finalize r).overall_status = "partial" ↔
       (¬((EvaluationReport.finalize r).success_rate = 1 ∧
          (EvaluationReport.finalize r).compiles = true ∧
          (EvaluationReport.finalize r).has_syntax_errors = false) ∧
        ¬((EvaluationReport.finalize r).compiles = false ∨
          (EvaluationReport.finalize r).has_syntax_errors = true ∨
          (EvaluationReport.finalize r).success_rate = 0))) :=
  EvaluationReport.statusOf_classification (EvaluationReport.setRate r)
    (EvaluationReport.finalize_rate_nonneg r h)

/-- Witness for C2 at a freshly constructed report. -/
theorem overall_status_classification_witness :
    0 ≤ (EvaluationReport.init "").success_rate ∧
    (((EvaluationReport.finalize (EvaluationReport.init "")).overall_status = "success" ↔
       ((EvaluationReport.finalize (EvaluationReport.init "")).success_rate = 1 ∧
        (EvaluationReport.finalize (EvaluationReport.init "")).compiles = true ∧
        (EvaluationReport.finalize (EvaluationReport.init "")).has_syntax_errors = false)) ∧
    ((EvaluationReport.finalize (EvaluationReport.init "")).overall_status = "failed" ↔
       ((EvaluationReport.finalize (EvaluationReport.init "")).compiles = false ∨
        (EvaluationReport.finalize (EvaluationReport.init "")).has_syntax_errors = true ∨
        (EvaluationReport.finalize (EvaluationReport.init "")).success_rate = 0)) ∧
    ((EvaluationReport.finalize (EvaluationReport.init "")).overall_status = "partial" ↔
       (¬((EvaluationReport.finalize (EvaluationReport.init "")).success_rate = 1 ∧
          (EvaluationReport.finalize (EvaluationReport.init "")).compiles = true ∧
          (EvaluationReport.finalize (EvaluationReport.init "")).has_syntax_errors = false) ∧
        ¬((EvaluationReport.finalize (EvaluationReport.init "")).compiles = false ∨
          (EvaluationReport.finalize (EvaluationReport.init "")).has_syntax_errors = true ∨
          (EvaluationReport.finalize (EvaluationReport.init "")).success_rate = 0)))) :=
  ⟨le_refl _, overall_status_classification (EvaluationReport.init "") (le_refl _)⟩

/-- C3: for a report written only through its own methods, after
    `finalize()` the success rate is `passed_tests / total_tests`, and
    0 when `total_tests = 0`. -/
theorem success_rate_after_finalize (prog : String) (ms : List ReportMethod) :
    (EvaluationReport.finalize (applyMethods (EvaluationReport.init prog) ms)).success_rate =
      if (EvaluationReport.finalize (applyMethods (EvaluationReport.init prog) ms)).total_tests = 0
      then 0
      else ((EvaluationReport.finalize (applyMethods (EvaluationReport.init prog) ms)).passed_tests : ℚ) /
             ((EvaluationReport.finalize (applyMethods (EvaluationReport.init prog) ms)).total_tests : ℚ) := by
  set r := applyMethods (EvaluationReport.init prog) ms with hr
  have hz : r.total_tests = 0 → r.success_rate = 0 :=
    applyMethods_zero_rate ms _ (fun _ => rfl)
  rw [EvaluationReport.finalize_rate, EvaluationReport.finalize_total,
    EvaluationReport.finalize_passed, EvaluationReport.setRate_rate]
  by_cases h : 0 < r.total_tests
  · rw [if_pos h, if_neg (by omega)]
  · rw [if_neg h, if_pos (by omega)]
    exact hz (by omega)

/-- C4: whatever status strings are passed, after any sequence of
    `add_test_result` calls `total_tests = passed_tests + failed_tests`. -/
theorem total_tests_split (prog : String) (calls : List TestCall) :
    (applyTests (EvaluationReport.init prog) calls).total_tests =
      (applyTests (EvaluationReport.init prog) calls).passed_tests +
        (applyTests (EvaluationReport.init prog) calls).failed_tests :=
  applyTests_counters calls _ rfl

/-- C5: `finalize()` is idempotent: a second call leaves every field of
    the report unchanged. -/
theorem finalize_idempotent (r : EvaluationReport) :
    EvaluationReport.finalize (EvaluationReport.finalize r) =
      EvaluationReport.finalize r := by
  cases r
  simp only [EvaluationReport.finalize, EvaluationReport.setRate,
    EvaluationReport.statusOf]
  split_ifs <;> rfl

/-- C6: for every datapoint, candidate text, and mock failure draw, the
    three `evaluate` entry points return an `EvaluationReport`
    (`Except.ok`) and never raise: the only partial operation on these
    paths, the division in `finalize`, is guarded. -/
theorem evaluate_total_never_raises (dp : ProgramSynthesisDatapoint)
    (prog : String) (ft : MockFailureType) :
    (∃ rep, RustProgramSynthesizer.evaluate dp prog = .ok rep) ∧
    (∃ rep, OCamlProgramSynthesizer.evaluate dp prog = .ok rep) ∧
    (∃ rep, MockSynthesizer.evaluate dp prog ft = .ok rep) := by
  refine ⟨⟨_, EvaluationReport.finalizeE_ok _⟩,
    ⟨_, EvaluationReport.finalizeE_ok _⟩, ?_⟩
  cases ft <;>
    · simp only [MockSynthesizer.evaluate]
      exact ⟨_, EvaluationReport.finalizeE_ok _⟩

/-- C7: `add_error("runtime", msg)` appends to `runtime_errors` and
    raises `has_runtime_errors`, leaving `compiles` and
    `has_syntax_errors` untouched. -/
theorem add_error_runtime_frame (r : EvaluationReport) (msg : String) :
    (r.add_error "runtime" msg).runtime_errors = r.runtime_errors ++ [msg] ∧
    (r.add_error "runtime" msg).has_runtime_errors = true ∧
    (r.add_error "runtime" msg).compiles = r.compiles ∧
    (r.add_error "runtime" msg).has_syntax_errors = r.has_syntax_errors :=
  ⟨rfl, rfl, rfl, rfl⟩

/-- C8 counterexample: constructing the Rust adapter executes no
    availability probe, refuting that every toolchain adapter probes at
    construction. -/
theorem rust_adapter_runs_no_probe :
    (rustInit "zero_shot" "gemini-1.5-flash").2 = [] ∧
    (rustInit "zero_shot" "gemini-1.5-flash").2.length ≠ 1 := ⟨rfl, by decide⟩

/-- C8 (amended): the OCaml adapter runs the availability probe exactly
    once at construction and stores its boolean outside the report; the
    probe maps a missing binary and a timeout to `false` and completion
    to `returncode == 0`, never raising; the Rust adapter runs no
    availability probe at all. -/
theorem availability_probe_amended (env : ToolchainEnv) (pm mn : String) :
    (ocamlInit env pm mn).2 = [["ocaml", "-version"]] ∧
    (ocamlInit env pm mn).1.ocaml_available =
      check_ocaml_availability env.ocamlProbe ∧
    check_ocaml_availability ProbeOutcome.fileNotFound = false ∧
    check_ocaml_availability ProbeOutcome.timedOut = false ∧
    (∀ rc : Int, check_ocaml_availability (ProbeOutcome.completed rc) = (rc == 0)) ∧
    (rustInit pm mn).2 = [] :=
  ⟨rfl, rfl, rfl, rfl, fun _ => rfl, rfl⟩

/-- C9: `add_error` with an unrecognised error type is a no-op: no list
    is appended to and no flag changes. -/
theorem add_error_unknown_type_noop (r : EvaluationReport) (ty msg : String)
    (h1 : ty ≠ "synthesizer") (h2 : ty ≠ "compiler") (h3 : ty ≠ "runtime")
    (h4 : ty ≠ "warning") : r.add_error ty msg = r := by
  unfold EvaluationReport.add_error
  rw [if_neg h1, if_neg h2, if_neg h3, if_neg h4]

/-- Witness for C9 at the error type "oops". -/
theorem add_error_unknown_type_noop_witness :
    ("oops" ≠ "synthesizer" ∧ "oops" ≠ "compiler" ∧ "oops" ≠ "runtime" ∧
      "oops" ≠ "warning") ∧
    (EvaluationReport.init "p").add_error "oops" "m" = EvaluationReport.init "p" :=
  ⟨⟨by decide, by decide, by decide, by decide⟩,
    add_error_unknown_type_noop (EvaluationReport.init "p") "oops" "m"
      (by decide) (by decide) (by decide) (by decide)⟩

/-- C10: after `finalize()`, `overall_status` is one of "success",
    "partial", "failed" for every report state: the constructor value
    "unknown" never survives. -/
theorem overall_status_no_unknown (r : EvaluationReport) :
    (EvaluationReport.finalize r).overall_status = "success" ∨
    (EvaluationReport.finalize r).overall_status = "partial" ∨
    (EvaluationReport.finalize r).overall_status = "failed" := by
  rw [EvaluationReport.finalize_status]
  unfold EvaluationReport.statusOf
  split_ifs <;> simp
